import Mathlib

/-!
Verification of the request-dispatch-and-serialization layer of the
`completion.py` bridge process (a Jedi-based completion server).

The Python source is embedded shallowly: each definition below mirrors one
function or code path of `src/lib/completion.py`.  Python strings are Lean
`String`s; the string methods the source uses (`split`, `replace`, `strip`,
`lower`, `startswith`, `re.match` on the two module-level regexes) are
re-implemented as structural recursions over `List Char` so that every
definition evaluates by kernel reduction.  Engine (Jedi) calls are modelled
as inputs: a request handler receives the sequences of candidates the
engine would return, with `Except` capturing Python exceptions.
-/

/-- Python exception kinds that the source raises or catches. -/
inductive PyErr where
  | keyError
  | typeError
  | jsonError
  | other
  deriving DecidableEq, Repr

/-! ## Python string primitives (structural, kernel-reducible) -/

/-- Whitespace set of Python `str.strip()` (ASCII portion). -/
def pyIsSpace (c : Char) : Bool :=
  c = ' ' ∨ c = '\t' ∨ c = '\n' ∨ c = '\x0d' ∨ c = '\x0b' ∨ c = '\x0c'

/-- Python `str.strip()`: drop whitespace from both ends. -/
def pyStrip (s : String) : String :=
  ⟨((s.data.dropWhile pyIsSpace).reverse.dropWhile pyIsSpace).reverse⟩

/-- ASCII lower-casing of one character, as Python `str.lower` does for ASCII. -/
def pyLowerChar (c : Char) : Char :=
  if 'A' ≤ c ∧ c ≤ 'Z' then Char.ofNat (c.toNat + 32) else c

/-- Python `str.lower()` (ASCII). -/
def pyLower (s : String) : String := ⟨s.data.map pyLowerChar⟩

/-- Python `str.startswith(pre)`. -/
def pyStartsWith (s pre : String) : Bool := pre.data.isPrefixOf s.data

/-- Helper for `pySplitChar`: accumulate the current piece (reversed). -/
def pySplitCharAux (sep : Char) : List Char → List Char → List (List Char)
  | [], acc => [acc.reverse]
  | c :: rest, acc =>
    if c = sep then acc.reverse :: pySplitCharAux sep rest []
    else pySplitCharAux sep rest (c :: acc)

/-- Python `str.split(sep)` for a one-character separator: always returns at
least one piece; `"".split(sep) == [""]`. -/
def pySplitChar (sep : Char) (s : String) : List String :=
  (pySplitCharAux sep s.data []).map fun cs => ⟨cs⟩

/-- Fuel-indexed core of `pyReplace`; fuel `s.length` always suffices since
each step consumes at least one character of the subject. -/
def pyReplaceFuel (pat rep : List Char) : Nat → List Char → List Char
  | 0, s => s
  | _ + 1, [] => []
  | fuel + 1, c :: rest =>
    if pat ≠ [] ∧ pat.isPrefixOf (c :: rest) then
      rep ++ pyReplaceFuel pat rep fuel ((c :: rest).drop pat.length)
    else c :: pyReplaceFuel pat rep fuel rest

/-- Python `str.replace(pat, rep)` for a non-empty pattern: replace every
non-overlapping occurrence left to right. -/
def pyReplace (s pat rep : String) : String :=
  ⟨pyReplaceFuel pat.data rep.data s.data.length s.data⟩

/-- Python `', '.join(xs)`-style joining. -/
def joinSep (sep : String) : List String → String
  | [] => ""
  | [x] => x
  | x :: xs => x ++ sep ++ joinSep sep xs

/-- Truthiness of the `value` variable in the source: it is either `None`
(match failed) or a string, and `if value:` is false for `None` and `''`. -/
def pyTruthy : Option String → Bool
  | none => false
  | some s => ¬ s = ""

/-- `WORD_RE = re.compile(r'\w')` applied with `.match(s)`: succeeds exactly
when the first character is a word character (ASCII reading of `\w`). -/
def wordReMatches (s : String) : Bool :=
  match s.data with
  | [] => false
  | c :: _ => c.isAlphanum ∨ c = '_'

/-- `ARGUMENT_RE = re.compile(r'[a-zA-Z0-9_=\*"\']+')` applied with
`.match(s)`: succeeds exactly when the first character is in the class. -/
def argumentReMatches (s : String) : Bool :=
  match s.data with
  | [] => false
  | c :: _ => c.isAlphanum ∨ c = '_' ∨ c = '=' ∨ c = '*' ∨ c = '"' ∨ c = Char.ofNat 39

/-- Python `str.isupper()` (ASCII): at least one cased character and no
lower-case cased character. -/
def pyIsupper (s : String) : Bool :=
  s.data.any (fun c => c.isAlpha) ∧ s.data.all (fun c => ¬ c.isAlpha ∨ c.isUpper)

/-! ## Candidate model

A `Candidate` is the engine's native result unit (jedi `Completion` /
`Definition`), restricted to the read-only attribute set the source uses.
`params = none` models a candidate lacking the `params` attribute
(`hasattr(completion, 'params')` false); `definitionChildren = none` models
`completion._definition` missing or `None`. -/

/-- One parse-tree child node of `completion._definition`, as used by
`_additional_info`: its Python class name and `get_code()` text. -/
structure PyNode where
  className : String
  code : String
  deriving DecidableEq, Repr

/-- A signature parameter (jedi `Param`): `name` and `description`. -/
structure SigParam where
  name : String
  description : String
  deriving DecidableEq, Repr

/-- Result of `completion.parent()`: the lexical parent's name and type. -/
structure ParentScope where
  name : String
  type : String
  deriving DecidableEq, Repr

/-- An engine candidate with the attributes read by the serializers.
`modulePath = ""` models a falsy `module_path` (`None` or empty). -/
structure Candidate where
  name : String
  type : String
  inBuiltinModule : Bool
  modulePath : String
  moduleName : String
  line : Int
  column : Int
  docstring : String
  params : Option (List SigParam)
  definitionChildren : Option (List PyNode)
  parent : ParentScope
  deriving DecidableEq, Repr

/-- A call signature (jedi `Signature`) as used by `_get_call_signatures`,
`_generate_signature` and `_additional_info`. -/
structure Signature where
  name : String
  type : String
  params : List SigParam
  docstring : String
  definitionChildren : Option (List PyNode)
  deriving DecidableEq, Repr

/-! ## Shared serializer helpers -/

/-- `JediCompletion.basic_types` class attribute. -/
def basic_types : List (String × String) :=
  [("module", "import"), ("instance", "variable"),
   ("statement", "value"), ("param", "variable")]

/-- `JediCompletion._get_definition_type`. -/
def getDefinitionType (c : Candidate) : String :=
  if ¬ c.type ∈ ["import", "keyword"] ∧ c.inBuiltinModule then "builtin"
  else if c.type ∈ ["statement"] ∧ pyIsupper c.name then "constant"
  else (basic_types.lookup c.type).getD c.type

/-- The `nodes_to_display` list of `_additional_info`. -/
def nodesToDisplay : List String :=
  ["InstanceElement", "String", "Node", "Lambda", "Number"]

/-- `JediCompletion._additional_info`, factored over the two attributes it
reads (`type` and `_definition.children`), so it applies to both
`Candidate` and `Signature` arguments as in the source. -/
def additionalInfoCore (typ : String) (children : Option (List PyNode)) : String :=
  match children with
  | none => ""
  | some cs =>
    if typ = "statement" then
      pyReplace (joinSep "" ((cs.filter fun n => nodesToDisplay.contains n.className).map
        fun n => n.code)) "\n" ""
    else ""

/-- `JediCompletion._generate_signature`: `''` for modules or candidates
without a `params` attribute, else `name(desc, desc, ...)`. -/
def generateSignature (typ name : String) (params : Option (List SigParam)) : String :=
  if typ ∈ ["module"] ∨ params = none then ""
  else name ++ "(" ++ joinSep ", " ((params.getD []).map fun p => p.description) ++ ")"

/-! ## Response model

`json.dumps({'id': ..., 'results': ...})` is modelled structurally: a
`Response` record with the echoed identifier, the results array, and the
extra `arguments` field that only the `arguments` serializer adds. -/

/-- One entry of a `completions` response.  `snippet`/`displayText` are
`none` when the Python dict lacks the key. -/
structure CompletionEntry where
  text : String
  type : String
  description : String
  rightLabel : String
  snippet : Option String
  displayText : Option String
  deriving DecidableEq, Repr

/-- One entry of a `definitions` response. -/
structure DefinitionEntry where
  text : String
  type : String
  fileName : String
  line : Int
  column : Int
  deriving DecidableEq, Repr

/-- One entry of a `tooltip` response. -/
structure TooltipEntry where
  text : String
  type : String
  fileName : String
  description : String
  line : Int
  column : Int
  deriving DecidableEq, Repr

/-- One entry of a `usages` response. -/
structure UsageEntry where
  name : String
  moduleName : String
  fileName : String
  line : Int
  column : Int
  deriving DecidableEq, Repr

/-- One entry of a `methods` response (`instance` is a Lean keyword, hence
`instanceName` for the Python dict key `'instance'`). -/
structure MethodEntry where
  parent : String
  instanceName : String
  name : String
  params : List String
  moduleName : String
  fileName : String
  line : Int
  column : Int
  deriving DecidableEq, Repr

/-- A results-array element, tagged by the serializer that produced it. -/
inductive ResultEntry where
  | completion (e : CompletionEntry)
  | definitionE (e : DefinitionEntry)
  | tooltipE (e : TooltipEntry)
  | usage (e : UsageEntry)
  | method (e : MethodEntry)
  deriving DecidableEq, Repr

/-- The serialized response object: `{'id': ..., 'results': [...]}` plus the
`'arguments'` key (present only when `arguments := some _`). -/
structure Response where
  id : Int
  results : List ResultEntry
  arguments : Option String
  deriving DecidableEq, Repr

/-! ## `_get_call_signatures` -/

/-- An `except KeyError` handler around an engine call: `KeyError` is
replaced by `default`, any other exception propagates. -/
def catchKeyError (x : Except PyErr α) (default : α) : Except PyErr α :=
  match x with
  | .error .keyError => .ok default
  | other => other

/-- Python `name, value = description.split('=')` wrapped in
`try/except ValueError`: splitting into exactly two pieces binds both,
any other piece count raises and falls back to `(description, None)`. -/
def splitEq (s : String) : String × Option String :=
  match pySplitChar '=' s with
  | [n, v] => (n, some v)
  | _ => (s, none)

/-- The per-parameter body of `_get_call_signatures`' inner loop: `none`
models `continue`. -/
def callSignatureParam (sig : Signature) (pos : Nat) (p : SigParam) :
    Option (Signature × String × Option String) :=
  if p.name = "" then none
  else if p.name = "self" ∧ pos = 0 then none
  else if ¬ wordReMatches p.name then none
  else
    let descr := pyReplace p.description "param " ""
    let nv := splitEq descr
    if pyStartsWith nv.1 "*" then none
    else some (sig, nv.1, nv.2)

/-- `JediCompletion._get_call_signatures`: `script.get_signatures` under an
`except KeyError` guard, then the filtered `(signature, name, value)`
triples. -/
def getCallSignatures (sigsE : Except PyErr (List Signature)) :
    Except PyErr (List (Signature × String × Option String)) := do
  let sigs ← catchKeyError sigsE []
  pure (sigs.flatMap fun sig =>
    sig.params.enum.filterMap fun pp => callSignatureParam sig pp.1 pp.2)

/-! ## `_serialize_completions` -/

/-- The argument-flavoured completion dict built for one
`(signature, name, value)` triple in `_serialize_completions`. -/
def mkArgEntry (showDocStrings : Bool) (sig : Signature) (name : String)
    (value : Option String) : CompletionEntry :=
  let rightLabel := additionalInfoCore sig.type sig.definitionChildren
  let descr := if showDocStrings then sig.docstring
    else generateSignature sig.type sig.name (some sig.params)
  if pyTruthy value then
    { text := name ++ "=" ++ value.getD "",
      type := "property", description := descr, rightLabel := rightLabel,
      snippet := some (name ++ "=$\x7b1:" ++ value.getD "" ++ "\x7d$0"),
      displayText := none }
  else
    { text := name,
      type := "property", description := descr, rightLabel := rightLabel,
      snippet := some (name ++ "=$1$0"),
      displayText := some name }

/-- The plain completion dict built for one engine completion in
`_serialize_completions`. -/
def mkNameEntry (showDocStrings : Bool) (c : Candidate) : CompletionEntry :=
  { text := c.name,
    type := getDefinitionType c,
    description := if showDocStrings then c.docstring
      else generateSignature c.type c.name c.params,
    rightLabel := additionalInfoCore c.type c.definitionChildren,
    snippet := none, displayText := none }

/-- The deduplication test of `_serialize_completions`:
`any([c['text'].split('=')[0] == _completion['text'] for c in _completions])`. -/
def completionCollides (acc : List CompletionEntry) (entry : CompletionEntry) : Bool :=
  acc.any fun c => ((pySplitChar '=' c.text).headD "") == entry.text

/-- `JediCompletion._serialize_completions`: argument candidates first
(prefix-filtered unless the fuzzy matcher is on), then general completions
with colliding entries dropped. -/
def serializeCompletions (fuzzyMatcher showDocStrings : Bool)
    (sigsE : Except PyErr (List Signature)) (complE : Except PyErr (List Candidate))
    (ident : Int) (pfx : String) : Except PyErr Response := do
  let triples ← getCallSignatures sigsE
  let argEntries := triples.foldl (fun acc t =>
    if ¬ fuzzyMatcher ∧ ¬ pyStartsWith (pyLower t.2.1) (pyLower pfx) then acc
    else acc ++ [mkArgEntry showDocStrings t.1 t.2.1 t.2.2]) []
  let completions ← catchKeyError complE []
  let entries := completions.foldl (fun acc c =>
    let entry := mkNameEntry showDocStrings c
    if completionCollides acc entry then acc
    else acc ++ [entry]) argEntries
  pure { id := ident, results := entries.map .completion, arguments := none }

/-! ## `_serialize_methods` -/

/-- What a serializer hands to `_write_response`: normally the
`json.dumps` string, but the `except KeyError` branch of
`_serialize_methods` returns the bare Python list `[]` instead. -/
inductive SerializerOut where
  | jsonString (r : Response)
  | pythonList
  deriving DecidableEq, Repr

/-- `JediCompletion._write_response`: `sys.stdout.write(response + '\n')`.
String concatenation succeeds for a `json.dumps` result; concatenating a
list with `'\n'` raises `TypeError`. -/
def writeResponse : SerializerOut → Except PyErr Response
  | .jsonString r => .ok r
  | .pythonList => .error .typeError

/-- The method dict built for one class-parented completion in
`_serialize_methods`. -/
def mkMethodEntry (instanceName : String) (c : Candidate) : MethodEntry :=
  { parent := c.parent.name,
    instanceName := instanceName,
    name := c.name,
    params := match c.params with
      | some ps => (ps.filter fun p => argumentReMatches p.description).map
          fun p => p.description
      | none => [],
    moduleName := c.moduleName,
    fileName := c.modulePath,
    line := c.line,
    column := c.column }

/-- `JediCompletion._serialize_methods`.  On `KeyError` from
`script.completions()` the source returns the bare list `[]` (not a JSON
string); otherwise the sentinel completion `__autocomplete_python` selects
the instance name (`for/else` defaulting to `'self.__class__'`) and every
completion whose lexical parent is a class becomes a method entry. -/
def serializeMethods (complE : Except PyErr (List Candidate)) (ident : Int) :
    Except PyErr SerializerOut :=
  match complE with
  | .error .keyError => .ok .pythonList
  | .error e => .error e
  | .ok completions =>
    let instanceName :=
      match completions.find? fun c => c.name == "__autocomplete_python" with
      | some c => c.parent.name
      | none => "self.__class__"
    let methods := completions.filterMap fun c =>
      if c.parent.type = "class" then some (mkMethodEntry instanceName c) else none
    .ok (.jsonString { id := ident, results := methods.map .method, arguments := none })

/-! ## `_serialize_arguments` -/

/-- One step of the argument-collection loop in `_serialize_arguments`:
state is `(arguments, seen, i)`; `continue` (named parameter whose default
is suppressed because `use_snippets` is not `'all'`) leaves the state and
the counter unchanged, a duplicate name skips the append but still
increments `i`. -/
def argumentsStep (useSnippets : Option String)
    (st : List String × List String × Nat) (t : Signature × String × Option String) :
    List String × List String × Nat :=
  let arguments := st.1
  let seen := st.2.1
  let i := st.2.2
  let name := t.2.1
  let value := t.2.2
  match (if ¬ pyTruthy value then some ("$\x7b" ++ toString i ++ ":" ++ name ++ "\x7d")
    else if useSnippets = some "all" then
      some (name ++ "=$\x7b" ++ toString i ++ ":" ++ value.getD "" ++ "\x7d")
    else none) with
  | none => st
  | some arg =>
    if name ∈ seen then (arguments, seen, i + 1)
    else (arguments ++ [arg], seen ++ [name], i + 1)

/-- `JediCompletion._serialize_arguments`: joins the collected snippet
arguments and appends `$0`; the response carries an empty results array and
the snippet under the extra `'arguments'` key. -/
def serializeArguments (useSnippets : Option String)
    (sigsE : Except PyErr (List Signature)) (ident : Int) : Except PyErr Response := do
  let triples ← getCallSignatures sigsE
  let st := triples.foldl (argumentsStep useSnippets) ([], [], 1)
  pure { id := ident, results := [],
         arguments := some (joinSep ", " st.1 ++ "$0") }

/-! ## `_top_definition` and the definition-candidate environment

`_top_definition` re-queries the engine (`definition.goto_assignments()`),
so candidates appearing in `definitions`/`tooltip` requests are modelled as
identifiers in an environment that supplies both their attributes and their
`goto_assignments` results.  The Python recursion has no termination
guarantee, so it is embedded fuel-indexed: `none` means the recursion did
not finish within the given fuel, and divergence is `none` for every fuel. -/

/-- The engine environment behind `goto_assignments`: attribute record and
resolution list for each candidate identifier. -/
structure DefEnv where
  goto : Nat → List Nat
  attrs : Nat → Candidate

/-- The `for d in definition.goto_assignments():` loop body of
`_top_definition`: skip `d == definition`, recurse (via `recur`) on imports,
return the first non-import, and fall back to `definition` itself when the
list is exhausted. -/
def topDefScan (env : DefEnv) (recur : Nat → Option Nat) (d : Nat) :
    List Nat → Option Nat
  | [] => some d
  | x :: rest =>
    if x = d then topDefScan env recur d rest
    else if (env.attrs x).type = "import" then recur x
    else some x

/-- `JediCompletion._top_definition`, fuel-indexed. -/
def topDefFuel (env : DefEnv) : Nat → Nat → Option Nat
  | 0, _ => none
  | fuel + 1, d => topDefScan env (topDefFuel env fuel) d (env.goto d)

/-- Non-termination of `_top_definition` on a candidate: no amount of fuel
completes the recursion. -/
def topDefDiverges (env : DefEnv) (d : Nat) : Prop :=
  ∀ fuel, topDefFuel env fuel d = none

/-! ## `_serialize_definitions`, `_serialize_tooltip`, `_serialize_usages` -/

/-- The shared body of the `definitions`/`tooltip` loops: skip candidates
with a falsy `module_path`, resolve imports through `_top_definition`, then
skip again if the resolved candidate has no module path.  Outer `none`
means `_top_definition` diverged; `some none` means the candidate was
skipped; `some (some j)` is the resolved candidate. -/
def resolveForOutput (env : DefEnv) (fuel : Nat) (i : Nat) : Option (Option Nat) :=
  let c := env.attrs i
  if c.modulePath = "" then some none
  else
    match (if c.type = "import" then topDefFuel env fuel i else some i) with
    | none => none
    | some j => if (env.attrs j).modulePath = "" then some none else some (some j)

/-- The definition dict of `_serialize_definitions`: note `line - 1`. -/
def mkDefinitionEntry (env : DefEnv) (j : Nat) : DefinitionEntry :=
  let d := env.attrs j
  { text := d.name, type := getDefinitionType d, fileName := d.modulePath,
    line := d.line - 1, column := d.column }

/-- `JediCompletion._serialize_definitions`, fuel-indexed through
`_top_definition`. -/
def serializeDefinitions (env : DefEnv) (fuel : Nat) (ids : List Nat)
    (ident : Int) : Option Response :=
  (ids.mapM fun i => resolveForOutput env fuel i).map fun rs =>
    { id := ident,
      results := (rs.filterMap id).map fun j => .definitionE (mkDefinitionEntry env j),
      arguments := none }

/-- The tooltip dict of `_serialize_tooltip`: the stripped doc string with
fallback to `_additional_info` when empty, and again `line - 1`. -/
def mkTooltipEntry (env : DefEnv) (j : Nat) : TooltipEntry :=
  let d := env.attrs j
  let description := pyStrip d.docstring
  let description := if description = "" then
      additionalInfoCore d.type d.definitionChildren
    else description
  { text := d.name, type := getDefinitionType d, fileName := d.modulePath,
    description := description, line := d.line - 1, column := d.column }

/-- The `for` loop of `_serialize_tooltip`: the first candidate that
survives `resolveForOutput` is emitted and the loop `break`s. -/
def tooltipLoop (env : DefEnv) (fuel : Nat) : List Nat → Option (List ResultEntry)
  | [] => some []
  | i :: rest =>
    match resolveForOutput env fuel i with
    | none => none
    | some none => tooltipLoop env fuel rest
    | some (some j) => some [.tooltipE (mkTooltipEntry env j)]

/-- `JediCompletion._serialize_tooltip`, fuel-indexed through
`_top_definition`. -/
def serializeTooltip (env : DefEnv) (fuel : Nat) (ids : List Nat)
    (ident : Int) : Option Response :=
  (tooltipLoop env fuel ids).map fun entries =>
    { id := ident, results := entries, arguments := none }

/-- `JediCompletion._serialize_usages`: native line and column, unmodified. -/
def serializeUsages (usages : List Candidate) (ident : Int) : Response :=
  { id := ident,
    results := usages.map fun u => .usage
      { name := u.name, moduleName := u.moduleName, fileName := u.modulePath,
        line := u.line, column := u.column },
    arguments := none }

/-! ## `sys.path` with Python reference semantics

`__init__` stores `self.default_sys_path = sys.path`: a second *reference*
to the same list object, not a copy.  `_set_request_config` re-binds
`sys.path` to that object, while `_process_request` later calls
`sys.path.insert(0, path)`, which mutates the object in place.  The store
below makes this explicit: list objects live in a heap, and the two names
hold cell indices. -/

/-- A heap of Python list objects plus the two references the source keeps
(`sys.path` and `self.default_sys_path`). -/
structure SysPathState where
  store : List (List String)
  sysPathRef : Nat
  defaultRef : Nat
  deriving DecidableEq, Repr

/-- The contents currently reachable through the `sys.path` reference. -/
def readSysPath (s : SysPathState) : List String :=
  (s.store.get? s.sysPathRef).getD []

/-- `sys.path = self.default_sys_path`: re-bind the `sys.path` reference. -/
def resetSysPath (s : SysPathState) : SysPathState :=
  { s with sysPathRef := s.defaultRef }

/-- `if path not in sys.path: sys.path.insert(0, path)` — an in-place
mutation of the referenced list object. -/
def insertSysPath (s : SysPathState) (p : String) : SysPathState :=
  if p ∈ readSysPath s then s
  else { s with store := s.store.set s.sysPathRef (p :: readSysPath s) }

/-- Process start (`__init__`): one list object, both references aliasing it. -/
def initSysPath (baseline : List String) : SysPathState :=
  { store := [baseline], sysPathRef := 0, defaultRef := 0 }

/-! ## Requests and per-request configuration -/

/-- The request's `config` dict; `none` fields model missing keys, whose
defaults `dict.get` supplies in `_set_request_config`. -/
structure RequestConfig where
  useSnippets : Option String
  showDescriptions : Option Bool
  fuzzyMatcher : Option Bool
  caseInsensitiveCompletion : Option Bool
  extraPaths : Option (List String)
  deriving DecidableEq, Repr

/-- The empty config dict (`request.get('config', {})` default). -/
def emptyConfig : RequestConfig :=
  { useSnippets := none, showDescriptions := none, fuzzyMatcher := none,
    caseInsensitiveCompletion := none, extraPaths := none }

/-- A decoded request.  `id`, `source`, `line`, `column` are accessed with
`request[...]` (mandatory); the rest through `request.get` (optional). -/
structure Request where
  id : Int
  lookup : Option String
  source : String
  path : Option String
  line : Int
  column : Int
  pfx : Option String
  config : Option RequestConfig
  deriving DecidableEq, Repr

/-- The server's mutable state across requests: the shared `sys.path`
object plus the per-request attributes set by `_set_request_config`. -/
structure SrvState where
  sysPath : SysPathState
  useSnippets : Option String
  showDocStrings : Bool
  fuzzyMatcher : Bool
  caseInsensitive : Bool
  extraPaths : List String
  deriving DecidableEq, Repr

/-- Server state at process start with the given baseline `sys.path`. -/
def initSrvState (baseline : List String) : SrvState :=
  { sysPath := initSysPath baseline, useSnippets := none, showDocStrings := true,
    fuzzyMatcher := false, caseInsensitive := true, extraPaths := [] }

/-- `JediCompletion._set_request_config`: re-bind `sys.path` to the default
object, read the config values with their defaults, and collect the
non-empty `extraPaths` entries not already on `sys.path` (membership is
tested against `sys.path`, which the loop itself never modifies). -/
def setRequestConfig (st : SrvState) (config : RequestConfig) : SrvState :=
  let sp := resetSysPath st.sysPath
  { sysPath := sp,
    useSnippets := config.useSnippets,
    showDocStrings := config.showDescriptions.getD true,
    fuzzyMatcher := config.fuzzyMatcher.getD false,
    caseInsensitive := config.caseInsensitiveCompletion.getD true,
    extraPaths := (config.extraPaths.getD []).filter fun p =>
      ¬ p = "" ∧ ¬ p ∈ readSysPath sp }

/-! ## `_get_top_level_module` (Path Resolver) -/

/-- POSIX `os.path.split`: split off the last path component; the head
keeps no trailing slashes unless it is all slashes. -/
def pySplitPath (p : String) : String × String :=
  let cs := p.data
  let tailRev := cs.reverse.takeWhile fun c => ¬ c = '/'
  let headRaw := (cs.reverse.drop tailRev.length).reverse
  let head := if headRaw ≠ [] ∧ headRaw.any (fun c => ¬ c = '/') then
      (headRaw.reverse.dropWhile fun c => c = '/').reverse
    else headRaw
  (⟨head⟩, ⟨tailRev.reverse⟩)

/-- POSIX `os.path.join` for a relative second component. -/
def pyJoin (a b : String) : String :=
  match a.data.reverse with
  | [] => b
  | c :: _ => if c = '/' then a ++ b else a ++ "/" ++ b

/-- Fuel-indexed core of `_get_top_level_module`; each recursive step
strictly shortens the path, so fuel `path.length` always suffices. -/
def getTopLevelModuleFuel (isFile : String → Bool) : Nat → String → String
  | 0, path => path
  | fuel + 1, path =>
    let hd := (pySplitPath path).1
    if ¬ hd = path ∧ isFile (pyJoin hd "__init__.py") then
      getTopLevelModuleFuel isFile fuel hd
    else path

/-- `JediCompletion._get_top_level_module`: walk up while the parent
directory contains `__init__.py`. -/
def getTopLevelModule (isFile : String → Bool) (path : String) : String :=
  getTopLevelModuleFuel isFile path.data.length path

/-! ## `_process_request` and the dispatch loop -/

/-- Everything the constructed `jedi.api.Script` (and `script._pos`)
depends on; the engine is a function of this context. -/
structure ScriptCtx where
  source : String
  path : String
  projectPath : String
  addedSysPath : List String
  sysPath : List String
  caseInsensitive : Bool
  posLine : Int
  posColumn : Int

/-- The engine's possible answers for one script: each field is one
capability call the dispatch may perform, `Except` capturing a raised
exception. -/
structure ScriptResults where
  getSignatures : Except PyErr (List Signature)
  complete : Except PyErr (List Candidate)
  completionsOld : Except PyErr (List Candidate)
  gotoAssignments : Except PyErr (List Nat)
  usages : Except PyErr (List Candidate)
  defEnv : DefEnv

/-- The world outside the bridge: the filesystem probe used by the Path
Resolver and the Analysis Engine. -/
structure World where
  isFile : String → Bool
  engine : ScriptCtx → ScriptResults

/-- The server state after the configuration-and-path prologue of
`_process_request` (config reset/apply, then package-root insertion). -/
def dispatchState (w : World) (st : SrvState) (req : Request) : SrvState :=
  let st1 := setRequestConfig st (req.config.getD emptyConfig)
  let root := getTopLevelModule w.isFile (req.path.getD "")
  { st1 with sysPath := insertSysPath st1.sysPath root }

/-- The script context `_process_request` builds
(`script._pos = request['line'] + 1, request['column']`). -/
def scriptCtx (w : World) (st : SrvState) (req : Request) : ScriptCtx :=
  let st2 := dispatchState w st req
  { source := req.source, path := req.path.getD "",
    projectPath := getTopLevelModule w.isFile (req.path.getD ""),
    addedSysPath := st2.extraPaths, sysPath := readSysPath st2.sysPath,
    caseInsensitive := st2.caseInsensitive,
    posLine := req.line + 1, posColumn := req.column }

/-- The engine results for the script `_process_request` constructs. -/
def scriptResults (w : World) (st : SrvState) (req : Request) : ScriptResults :=
  w.engine (scriptCtx w st req)

/-- `JediCompletion._process_request` for one already-read input line.
`input = .error e` models `json.loads` raising.  The result is `none` when
`_top_definition` diverges (the process hangs); otherwise the new server
state plus either the response `_write_response` wrote or the exception
that escaped the handler. -/
def processRequest (w : World) (fuel : Nat) (st : SrvState)
    (input : Except PyErr Request) : Option (SrvState × Except PyErr Response) :=
  match input with
  | .error e => some (st, .error e)
  | .ok req =>
    let st2 := dispatchState w st req
    let lookup := req.lookup.getD "completions"
    let res := scriptResults w st req
    if lookup = "definitions" then
      match res.gotoAssignments with
      | .error e => some (st2, .error e)
      | .ok ids =>
        match serializeDefinitions res.defEnv fuel ids req.id with
        | none => none
        | some r => some (st2, .ok r)
    else if lookup = "tooltip" then
      match res.gotoAssignments with
      | .error e => some (st2, .error e)
      | .ok ids =>
        match serializeTooltip res.defEnv fuel ids req.id with
        | none => none
        | some r => some (st2, .ok r)
    else if lookup = "arguments" then
      some (st2, serializeArguments st2.useSnippets res.getSignatures req.id)
    else if lookup = "usages" then
      match res.usages with
      | .error e => some (st2, .error e)
      | .ok us => some (st2, .ok (serializeUsages us req.id))
    else if lookup = "methods" then
      some (st2, (serializeMethods res.completionsOld req.id).bind writeResponse)
    else
      some (st2, serializeCompletions st2.fuzzyMatcher st2.showDocStrings
        res.getSignatures res.complete req.id (req.pfx.getD ""))

/-- `JediCompletion.watch`: read lines until end-of-input; every exception
raised while handling a line is caught at the loop boundary (logged to
stderr, which is not part of the output), and handling continues with the
next line.  The output is the list of response lines written to stdout;
`none` propagates a hang inside `_top_definition`. -/
def watch (w : World) (fuel : Nat) : SrvState → List (Except PyErr Request) →
    Option (List Response)
  | _, [] => some []
  | st, line :: rest =>
    match processRequest w fuel st line with
    | none => none
    | some (st', .ok r) => (watch w fuel st' rest).map fun out => r :: out
    | some (st', .error _) => watch w fuel st' rest

/-! ## Concrete fixtures -/

/-- A candidate with every attribute at a neutral default. -/
def blankCandidate : Candidate :=
  { name := "", type := "", inBuiltinModule := false, modulePath := "",
    moduleName := "", line := 0, column := 0, docstring := "", params := none,
    definitionChildren := none, parent := { name := "", type := "" } }

/-- An environment with no resolutions and blank attributes. -/
def emptyDefEnv : DefEnv := { goto := fun _ => [], attrs := fun _ => blankCandidate }

/-- An engine answering every capability call with an empty sequence. -/
def emptyScriptResults : ScriptResults :=
  { getSignatures := .ok [], complete := .ok [], completionsOld := .ok [],
    gotoAssignments := .ok [], usages := .ok [], defEnv := emptyDefEnv }

/-- A world with an empty filesystem and the empty-answer engine. -/
def trivialWorld : World :=
  { isFile := fun _ => false, engine := fun _ => emptyScriptResults }

/-- An engine raising `KeyError` on every capability call. -/
def keyErrorScriptResults : ScriptResults :=
  { getSignatures := .error .keyError, complete := .error .keyError,
    completionsOld := .error .keyError, gotoAssignments := .error .keyError,
    usages := .error .keyError, defEnv := emptyDefEnv }

/-- A world whose engine raises `KeyError` on every query. -/
def keyErrorWorld : World :=
  { isFile := fun _ => false, engine := fun _ => keyErrorScriptResults }

/-- A `methods` request. -/
def methodsReq : Request :=
  { id := 5, lookup := some "methods", source := "x.", path := none,
    line := 0, column := 2, pfx := none, config := none }

/-- A request with no `lookup` key (defaults to `completions`). -/
def complReq : Request :=
  { id := 6, lookup := none, source := "x.", path := none,
    line := 0, column := 2, pfx := none, config := none }

/-- A `definitions` request. -/
def defsReq : Request :=
  { id := 8, lookup := some "definitions", source := "x.", path := none,
    line := 0, column := 2, pfx := none, config := none }

/-! ## C1 — session config isolation of the module-search path -/

/-- Request A: a buffer path whose package root gets inserted into
`sys.path`, plus an `extraPaths` entry. -/
def reqA : Request :=
  { id := 1, lookup := none, source := "", path := some "/projA/mod.py",
    line := 0, column := 0, pfx := none,
    config := some { emptyConfig with extraPaths := some ["/x"] } }

/-- Request B: no `config` key at all. -/
def reqB : Request :=
  { id := 2, lookup := none, source := "", path := none,
    line := 0, column := 0, pfx := none, config := none }

/-- C1: the claim fails on the code.  `self.default_sys_path = sys.path`
aliases the very list that `sys.path.insert(0, path)` later mutates, so the
"fixed baseline captured at process start" is itself mutated: after request
A (path `/projA/mod.py`, baseline `["/usr/lib"]`), request B's config reset
still sees A's package root on `sys.path` (first conjunct: right after the
reset; second: on B's effective search path, which also gains `""` from B's
own empty path).  Third conjunct: the `extraPaths` filter checks membership
in `sys.path` only, so duplicated entries are kept, against the claimed
uniqueness. -/
theorem C1_sysPath_leak :
    (processRequest trivialWorld 1 (initSrvState ["/usr/lib"]) (.ok reqA)).map
        (fun s => readSysPath (setRequestConfig s.1 emptyConfig).sysPath)
      = some ["/projA/mod.py", "/usr/lib"]
  ∧ (processRequest trivialWorld 1 (initSrvState ["/usr/lib"]) (.ok reqA)).map
        (fun s => readSysPath (dispatchState trivialWorld s.1 reqB).sysPath)
      = some ["", "/projA/mod.py", "/usr/lib"]
  ∧ (setRequestConfig (initSrvState ["/usr/lib"])
        { emptyConfig with extraPaths := some ["/x", "/x"] }).extraPaths
      = ["/x", "/x"] :=
  ⟨rfl, rfl, rfl⟩

/-! ## C10 — unknown or missing lookup falls through to completions -/

/-- A request whose `lookup` is none of the five dispatched kinds. -/
def bananaReq : Request :=
  { id := 9, lookup := some "banana", source := "x.", path := none,
    line := 0, column := 2, pfx := none, config := none }

/-- C10: for every decodable request whose `lookup` field is missing or is
any string other than the five dispatched kinds, `_process_request` falls
through to the completions serializer and writes a completions-shaped
response. -/
theorem C10_lookup_defaults_to_completions (w : World) (fuel : Nat) (st : SrvState)
    (req : Request)
    (h : ¬ req.lookup.getD "completions" ∈
      ["definitions", "tooltip", "arguments", "usages", "methods"]) :
    processRequest w fuel st (.ok req) =
      some (dispatchState w st req,
        serializeCompletions (dispatchState w st req).fuzzyMatcher
          (dispatchState w st req).showDocStrings
          (scriptResults w st req).getSignatures (scriptResults w st req).complete
          req.id (req.pfx.getD "")) := by
  simp only [List.mem_cons, List.not_mem_nil, or_false, not_or] at h
  obtain ⟨h1, h2, h3, h4, h5⟩ := h
  simp only [processRequest, h1, h2, h3, h4, h5, if_false]

/-- C10 witness: a concrete request with `lookup = "banana"` is served by
the completions serializer. -/
theorem C10_witness :
    processRequest trivialWorld 1 (initSrvState ["/lib"]) (.ok bananaReq) =
      some (dispatchState trivialWorld (initSrvState ["/lib"]) bananaReq,
        serializeCompletions
          (dispatchState trivialWorld (initSrvState ["/lib"]) bananaReq).fuzzyMatcher
          (dispatchState trivialWorld (initSrvState ["/lib"]) bananaReq).showDocStrings
          (scriptResults trivialWorld (initSrvState ["/lib"]) bananaReq).getSignatures
          (scriptResults trivialWorld (initSrvState ["/lib"]) bananaReq).complete
          bananaReq.id (bananaReq.pfx.getD "")) :=
  C10_lookup_defaults_to_completions trivialWorld 1 (initSrvState ["/lib"]) bananaReq
    (by decide)

/-! ## C9 — fault containment of the dispatch loop -/

/-- C9: an exception while handling a line is caught at the loop boundary
and the loop proceeds with the next line and the post-failure state (first
conjunct); each input line yields at most one response line (second); and
feeding one malformed line followed by one valid request produces exactly
one response line, for the valid request, with the loop then ending at
end-of-input (third). -/
theorem C9_fault_containment :
    (∀ w fuel st line rest st' e,
        processRequest w fuel st line = some (st', Except.error e) →
        watch w fuel st (line :: rest) = watch w fuel st' rest)
  ∧ (∀ w fuel st lines out, watch w fuel st lines = some out →
        out.length ≤ lines.length)
  ∧ watch trivialWorld 1 (initSrvState ["/lib"])
      [Except.error PyErr.jsonError, Except.ok complReq]
      = some [{ id := 6, results := [], arguments := none }] := by
  refine ⟨?_, ?_, rfl⟩
  · intro w fuel st line rest st' e h
    simp only [watch, h]
  · intro w fuel st lines
    induction lines generalizing st with
    | nil =>
      intro out h
      simp only [watch, Option.some.injEq] at h
      simp [← h]
    | cons line rest ih =>
      intro out h
      simp only [watch] at h
      cases hp : processRequest w fuel st line with
      | none => rw [hp] at h; cases h
      | some p =>
        obtain ⟨st', r⟩ := p
        rw [hp] at h
        cases r with
        | error e =>
          dsimp only at h
          exact Nat.le_succ_of_le (ih st' out h)
        | ok r =>
          dsimp only at h
          cases ho : watch w fuel st' rest with
          | none => rw [ho] at h; cases h
          | some outTail =>
            rw [ho] at h
            simp only [Option.map, Option.some.injEq] at h
            subst h
            simpa using Nat.succ_le_succ (ih st' outTail ho)

/-- C9 witness: the containment conjunct applied to the concrete malformed
line, and the length bound applied to the concrete two-line input. -/
theorem C9_witness :
    watch trivialWorld 1 (initSrvState ["/lib"])
        [Except.error PyErr.jsonError, Except.ok complReq]
      = watch trivialWorld 1 (initSrvState ["/lib"]) [Except.ok complReq]
  ∧ ([({ id := 6, results := [], arguments := none } : Response)].length ≤
      [Except.error PyErr.jsonError, Except.ok complReq].length) :=
  ⟨C9_fault_containment.1 trivialWorld 1 (initSrvState ["/lib"])
      (Except.error PyErr.jsonError) [Except.ok complReq] (initSrvState ["/lib"])
      PyErr.jsonError rfl,
   C9_fault_containment.2.1 trivialWorld 1 (initSrvState ["/lib"])
      [Except.error PyErr.jsonError, Except.ok complReq]
      [{ id := 6, results := [], arguments := none }] rfl⟩

/-! ## C2 — serializing zero candidates -/

/-- C2 counterexample: with zero signature parameters, the `arguments`
response carries `'arguments': '$0'` (the `'%s$0' % ', '.join([])` snippet),
not the empty string the claim states. -/
theorem C2_counterexample :
    serializeArguments none (Except.ok []) 7 =
      Except.ok { id := 7, results := [], arguments := some "$0" } ∧
    ¬ ("$0" : String) = "" := ⟨rfl, by decide⟩

/-- C2 (amended): for every lookup kind and request id, serializing an
empty candidate sequence yields exactly `{'id': id, 'results': []}`, and
the `arguments` kind additionally carries `'arguments': "$0"` (the bare
terminal tab-stop, not the empty string). -/
theorem C2_empty_serialization (fuzzy showDocs : Bool) (useSnip : Option String)
    (env : DefEnv) (fuel : Nat) (ident : Int) (pfx : String) :
    serializeCompletions fuzzy showDocs (.ok []) (.ok []) ident pfx =
      .ok { id := ident, results := [], arguments := none }
  ∧ serializeMethods (.ok []) ident =
      .ok (.jsonString { id := ident, results := [], arguments := none })
  ∧ serializeDefinitions env fuel [] ident =
      some { id := ident, results := [], arguments := none }
  ∧ serializeTooltip env fuel [] ident =
      some { id := ident, results := [], arguments := none }
  ∧ serializeUsages [] ident = { id := ident, results := [], arguments := none }
  ∧ serializeArguments useSnip (.ok []) ident =
      .ok { id := ident, results := [], arguments := some "$0" } :=
  ⟨rfl, rfl, rfl, rfl, rfl, rfl⟩

/-! ## C4 — KeyError from the engine -/

/-- C4: the claim fails on the code for the `methods` lookup.  On
`KeyError` from `script.completions()`, `_serialize_methods` returns the
bare Python list `[]` instead of a `json.dumps` string, so
`_write_response` raises `TypeError` on `response + '\n'` and no response
is written (conjuncts 1–3).  The claim does hold for a completions-kind
request, where both engine calls are guarded (conjunct 4), while for
`definitions` the `KeyError` from `script.goto_assignments()` is not
guarded at all and propagates to the loop, again with no response written
(conjunct 5). -/
theorem C4_methods_keyError :
    serializeMethods (Except.error PyErr.keyError) 5 = .ok .pythonList
  ∧ writeResponse .pythonList = .error .typeError
  ∧ (processRequest keyErrorWorld 1 (initSrvState ["/lib"]) (.ok methodsReq)).map
      (fun s => s.2) = some (.error .typeError)
  ∧ (processRequest keyErrorWorld 1 (initSrvState ["/lib"]) (.ok complReq)).map
      (fun s => s.2) = some (.ok { id := 6, results := [], arguments := none })
  ∧ (processRequest keyErrorWorld 1 (initSrvState ["/lib"]) (.ok defsReq)).map
      (fun s => s.2) = some (.error .keyError) :=
  ⟨rfl, rfl, rfl, rfl, rfl⟩

/-! ## C6 — termination of `_top_definition` -/

/-- A candidate of kind `import` with a resolvable module path. -/
def importCandidate (nm : String) : Candidate :=
  { blankCandidate with name := nm, type := "import", modulePath := "/m.py" }

/-- Two import candidates whose `goto_assignments` resolve to each other. -/
def twoCycleEnv : DefEnv :=
  { goto := fun i => if i = 0 then [1] else if i = 1 then [0] else [],
    attrs := fun i => if i ≤ 1 then importCandidate "re" else blankCandidate }

/-- On the two-cycle, `_top_definition` recurses forever: the `d ==
definition` guard only skips the candidate itself, not previously visited
ones. -/
theorem twoCycle_none : ∀ fuel d, d = 0 ∨ d = 1 →
    topDefFuel twoCycleEnv fuel d = none := by
  intro fuel
  induction fuel with
  | zero => intro d _; rfl
  | succ n ih =>
    intro d hd
    have g0 : twoCycleEnv.goto 0 = [1] := rfl
    have g1 : twoCycleEnv.goto 1 = [0] := rfl
    have t0 : (twoCycleEnv.attrs 1).type = "import" := rfl
    have t1 : (twoCycleEnv.attrs 0).type = "import" := rfl
    rcases hd with h | h <;> subst h
    · simp [topDefFuel, topDefScan, g0, t0, ih 1 (Or.inr rfl)]
    · simp [topDefFuel, topDefScan, g1, t1, ih 0 (Or.inl rfl)]

/-- C6 counterexample: resolution from candidate 0 of the two-element
cycle of imports exhausts every fuel bound — `_top_definition` does not
terminate on a cyclic chain of length 2, refuting "terminates on every
input, including cyclic chains". -/
theorem C6_counterexample : topDefDiverges twoCycleEnv 0 :=
  fun fuel => twoCycle_none fuel 0 (Or.inl rfl)

/-- The non-import origin at the top of a linear import chain. -/
def chainOrigin : Candidate :=
  { blankCandidate with name := "origin", type := "function", modulePath := "/top.py" }

/-- A linear chain of `N` imports `0 → 1 → ... → N`, node `N` being the
non-import origin. -/
def chainEnv (N : Nat) : DefEnv :=
  { goto := fun i => if i < N then [i + 1] else [],
    attrs := fun i => if i < N then importCandidate ("m" ++ toString i) else chainOrigin }

/-- Resolution along the linear chain reaches the origin once the fuel
exceeds the remaining chain length. -/
theorem chain_resolves : ∀ fuel i N, i ≤ N → N - i < fuel →
    topDefFuel (chainEnv N) fuel i = some N := by
  intro fuel
  induction fuel with
  | zero => intro i N _ h; exact absurd h (by simp)
  | succ n ih =>
    intro i N hile hfuel
    by_cases hi : i < N
    · have hgoto : (chainEnv N).goto i = [i + 1] := by simp [chainEnv, hi]
      rw [topDefFuel, hgoto, topDefScan]
      have hne : ¬ (i + 1 = i) := by omega
      rw [if_neg hne]
      by_cases hi1 : i + 1 < N
      · have himp : ((chainEnv N).attrs (i + 1)).type = "import" := by
          simp [chainEnv, hi1, importCandidate, blankCandidate]
        rw [if_pos himp]
        exact ih (i + 1) N (by omega) (by omega)
      · have hN : i + 1 = N := by omega
        have himp : ¬ ((chainEnv N).attrs (i + 1)).type = "import" := by
          simp [chainEnv, hi1, chainOrigin, blankCandidate]
        rw [if_neg himp, hN]
    · have hiN : i = N := by omega
      subst hiN
      have hgoto : (chainEnv i).goto i = [] := by simp [chainEnv, hi]
      rw [topDefFuel, hgoto]
      rfl

/-- A candidate whose `goto_assignments` returns the candidate itself. -/
def selfLoopEnv : DefEnv :=
  { goto := fun i => [i], attrs := fun _ => importCandidate "selfref" }

/-- C6 (amended): `_top_definition` terminates when the only cycles in the
resolution graph are self-cycles — a name re-exported through `N` nested
levels of import resolves to the single non-import origin; a self-referential
chain (resolution returning the candidate already being resolved) stops at
the candidate itself — but a cyclic chain of length ≥ 2 recurses forever
(see the counterexample). -/
theorem C6_amended :
    (∀ N fuel, N < fuel → topDefFuel (chainEnv N) fuel 0 = some N)
  ∧ (∀ fuel d, 0 < fuel → topDefFuel selfLoopEnv fuel d = some d) := by
  constructor
  · intro N fuel h
    exact chain_resolves fuel 0 N (Nat.zero_le N) (by omega)
  · intro fuel d h
    cases fuel with
    | zero => omega
    | succ n => simp [topDefFuel, topDefScan, selfLoopEnv]

/-- C6 witness: a 2-import chain resolves to the origin with fuel 3, and a
self-loop resolves to itself with fuel 1. -/
theorem C6_witness :
    topDefFuel (chainEnv 2) 3 0 = some 2 ∧ topDefFuel selfLoopEnv 1 5 = some 5 :=
  ⟨C6_amended.1 2 3 (by decide), C6_amended.2 1 5 (by decide)⟩

/-! ## C5 — line-numbering contract, and C7 — tooltip special case -/

/-- A non-import, fully resolved candidate at native line 5. -/
def tooltipCand : Candidate :=
  { blankCandidate with
    name := "f"
    type := "function"
    modulePath := "/m.py"
    line := 5
    docstring := "doc" }

/-- Environment serving `tooltipCand` for every identifier. -/
def tooltipEnv : DefEnv := { goto := fun _ => [], attrs := fun _ => tooltipCand }

/-- The tooltip entry the code produces for `tooltipCand`. -/
def c5Entry : TooltipEntry :=
  { text := "f"
    type := "function"
    fileName := "/m.py"
    description := "doc"
    line := 4
    column := 0 }

/-- C5 counterexample: the claim says every lookup kind other than
`definitions` reports the candidate's native line unmodified, but the
`tooltip` serializer also subtracts one: a candidate at native line 5 is
reported at line 4. -/
theorem C5_counterexample :
    tooltipCand.line = 5
  ∧ serializeTooltip tooltipEnv 1 [0] 2 =
      some { id := 2, results := [ResultEntry.tooltipE c5Entry], arguments := none }
  ∧ c5Entry.line = 4
  ∧ ¬ (4 : Int) = 5 := ⟨rfl, rfl, rfl, by decide⟩

/-- Environment serving the one candidate `c` for every identifier. -/
def singleEnv (c : Candidate) : DefEnv := { goto := fun _ => [], attrs := fun _ => c }

/-- The `line` field of a result entry, when its shape has one. -/
def entryLine : ResultEntry → Option Int
  | .completion _ => none
  | .definitionE e => some e.line
  | .tooltipE e => some e.line
  | .usage e => some e.line
  | .method e => some e.line

/-- The output line numbers of a response. -/
def linesOf (r : Response) : List Int := r.results.filterMap entryLine

/-- The output line numbers behind a `_write_response` argument. -/
def outLines : SerializerOut → List Int
  | .jsonString r => linesOf r
  | .pythonList => []

/-- C5 (amended): for the same underlying candidate, `definitions` AND
`tooltip` report the candidate's native (1-based) line minus one, while
`usages` and `methods` report the native line unmodified (`completions`
entries carry no line at all). -/
theorem C5_amended (c : Candidate) (ident : Int) (fuel : Nat)
    (h1 : ¬ c.type = "import") (h2 : ¬ c.modulePath = "")
    (h3 : c.parent.type = "class") :
    (serializeDefinitions (singleEnv c) fuel [0] ident).map linesOf = some [c.line - 1]
  ∧ (serializeTooltip (singleEnv c) fuel [0] ident).map linesOf = some [c.line - 1]
  ∧ linesOf (serializeUsages [c] ident) = [c.line]
  ∧ (serializeMethods (.ok [c]) ident).map outLines = .ok [c.line] := by
  have hattr : ∀ i, (singleEnv c).attrs i = c := fun _ => rfl
  have hres : resolveForOutput (singleEnv c) fuel 0 = some (some 0) := by
    simp [resolveForOutput, hattr, h1, h2]
  refine ⟨?_, ?_, ?_, ?_⟩
  · have hm : List.mapM.loop (fun i => resolveForOutput (singleEnv c) fuel i) [0] [] =
        some [some 0] := by
      simp [List.mapM.loop, hres]
    simp [serializeDefinitions, List.mapM, hm, mkDefinitionEntry, hattr, linesOf,
      entryLine]
  · simp [serializeTooltip, tooltipLoop, hres, mkTooltipEntry, hattr, linesOf, entryLine]
  · simp [serializeUsages, linesOf, entryLine]
  · simp [serializeMethods, h3, mkMethodEntry, outLines, linesOf, entryLine, Except.map]

/-- A class-parented candidate at native line 5. -/
def methodCand : Candidate :=
  { blankCandidate with
    name := "m"
    type := "function"
    modulePath := "/m.py"
    line := 5
    column := 1
    parent := { name := "C", type := "class" } }

/-- C5 witness: the amended line-numbering contract evaluated on the
concrete candidate at native line 5. -/
theorem C5_witness :
    (serializeDefinitions (singleEnv methodCand) 1 [0] 1).map linesOf = some [4]
  ∧ (serializeTooltip (singleEnv methodCand) 1 [0] 1).map linesOf = some [4]
  ∧ linesOf (serializeUsages [methodCand] 1) = [5]
  ∧ (serializeMethods (.ok [methodCand]) 1).map outLines = .ok [5] :=
  C5_amended methodCand 1 1 (by decide) (by decide) (by decide)

/-- First tooltip candidate: fully resolved, doc string blank after
trimming, no annotation nodes, so its description renders empty. -/
def noDocCand : Candidate :=
  { blankCandidate with
    name := "a"
    type := "function"
    modulePath := "/a.py"
    line := 3
    docstring := "   " }

/-- Second tooltip candidate: fully resolved with a non-empty doc string. -/
def docCand : Candidate :=
  { blankCandidate with
    name := "b"
    type := "function"
    modulePath := "/b.py"
    line := 9
    docstring := "useful" }

/-- Environment with `noDocCand` as candidate 0 and `docCand` as 1. -/
def twoCandEnv : DefEnv :=
  { goto := fun _ => [], attrs := fun i => if i = 0 then noDocCand else docCand }

/-- The tooltip entry the code produces for `noDocCand`. -/
def c7Entry : TooltipEntry :=
  { text := "a"
    type := "function"
    fileName := "/a.py"
    description := ""
    line := 2
    column := 0 }

/-- C7 counterexample: the tooltip serializer emits the FIRST fully
resolved candidate even though its description is empty, instead of
passing over it for the later candidate with a non-empty description as
the claim requires. -/
theorem C7_counterexample :
    serializeTooltip twoCandEnv 1 [0, 1] 4 =
      some { id := 4, results := [ResultEntry.tooltipE c7Entry], arguments := none }
  ∧ c7Entry.description = ""
  ∧ pyStrip noDocCand.docstring = ""
  ∧ ¬ pyStrip docCand.docstring = "" := ⟨rfl, rfl, rfl, by decide⟩

/-- The tooltip loop emits at most one entry: it `break`s after the first
append. -/
theorem tooltipLoop_len (env : DefEnv) (fuel : Nat) :
    ∀ ids entries, tooltipLoop env fuel ids = some entries → entries.length ≤ 1 := by
  intro ids
  induction ids with
  | nil =>
    intro entries h
    simp only [tooltipLoop, Option.some.injEq] at h
    simp [← h]
  | cons i rest ih =>
    intro entries h
    simp only [tooltipLoop] at h
    cases hr : resolveForOutput env fuel i with
    | none => rw [hr] at h; cases h
    | some o =>
      rw [hr] at h
      cases o with
      | none => exact ih entries h
      | some j =>
        dsimp only at h
        simp only [Option.some.injEq] at h
        subst h
        simp

/-- C7 (amended): a tooltip response has at most one entry, and that entry
is the first candidate in input order that is fully resolved (resolvable
module path after import-chain resolution), with the description falling
back to the right-hand annotation text when the doc string is empty after
trimming — the description may itself still be empty; all remaining
candidates are discarded. -/
theorem C7_amended :
    (∀ env fuel ids ident r, serializeTooltip env fuel ids ident = some r →
        r.results.length ≤ 1)
  ∧ (∀ env fuel i rest ident j, resolveForOutput env fuel i = some (some j) →
        serializeTooltip env fuel (i :: rest) ident =
          some { id := ident, results := [.tooltipE (mkTooltipEntry env j)],
                 arguments := none })
  ∧ (∀ env fuel i rest ident, resolveForOutput env fuel i = some none →
        serializeTooltip env fuel (i :: rest) ident =
          serializeTooltip env fuel rest ident) := by
  refine ⟨?_, ?_, ?_⟩
  · intro env fuel ids ident r h
    simp only [serializeTooltip] at h
    cases hl : tooltipLoop env fuel ids with
    | none => rw [hl] at h; cases h
    | some entries =>
      rw [hl] at h
      simp only [Option.map, Option.some.injEq] at h
      subst h
      exact tooltipLoop_len env fuel ids entries hl
  · intro env fuel i rest ident j h
    simp [serializeTooltip, tooltipLoop, h]
  · intro env fuel i rest ident h
    simp [serializeTooltip, tooltipLoop, h]

/-- The concrete tooltip response for the two-candidate environment. -/
def c7Expected : Response :=
  { id := 4, results := [ResultEntry.tooltipE c7Entry], arguments := none }

/-- C7 witness: both conjuncts of the amended claim applied to the
concrete two-candidate environment. -/
theorem C7_witness :
    c7Expected.results.length ≤ 1
  ∧ serializeTooltip twoCandEnv 1 (0 :: [1]) 4 =
      some { id := 4, results := [.tooltipE (mkTooltipEntry twoCandEnv 0)],
             arguments := none } :=
  ⟨C7_amended.1 twoCandEnv 1 [0, 1] 4 c7Expected rfl,
   C7_amended.2.1 twoCandEnv 1 0 [1] 4 0 rfl⟩

/-! ## C8 — kind classification, and C3 — completions deduplication -/

/-- A value/statement candidate with an all-uppercase name that the engine
flags as built-in (e.g. a constant of a compiled module). -/
def piBuiltin : Candidate :=
  { blankCandidate with
    name := "PI"
    type := "statement"
    inBuiltinModule := true }

/-- C8 counterexample: the claim puts the `constant` test first, but the
code checks the built-in test first — a built-in, all-uppercase statement
candidate is tagged `builtin`, not `constant`. -/
theorem C8_counterexample :
    piBuiltin.type ∈ ["statement"]
  ∧ pyIsupper piBuiltin.name = true
  ∧ piBuiltin.inBuiltinModule = true
  ∧ getDefinitionType piBuiltin = "builtin"
  ∧ ¬ ("builtin" : String) = "constant" :=
  ⟨by decide, by decide, rfl, rfl, by decide⟩

/-- Modelled from the amended claim's words: `builtin` if not an
import/keyword and flagged built-in; else `constant` if a statement with an
all-uppercase name; else the fixed table `module→import`,
`instance→variable`, `statement→value`, `param→variable`; else the native
kind unchanged. -/
def kindTagAmended (c : Candidate) : String :=
  if ¬ c.type = "import" ∧ ¬ c.type = "keyword" ∧ c.inBuiltinModule then "builtin"
  else if c.type = "statement" ∧ pyIsupper c.name then "constant"
  else if c.type = "module" then "import"
  else if c.type = "instance" then "variable"
  else if c.type = "statement" then "value"
  else if c.type = "param" then "variable"
  else c.type

/-- C8 (amended): the serialized kind tag is computed with the `builtin`
test FIRST, then `constant`, then the fixed table, else the native kind
unchanged. -/
theorem C8_amended (c : Candidate) : getDefinitionType c = kindTagAmended c := by
  have hlk : (basic_types.lookup c.type).getD c.type =
      (if c.type = "module" then "import"
       else if c.type = "instance" then "variable"
       else if c.type = "statement" then "value"
       else if c.type = "param" then "variable"
       else c.type) := by
    by_cases h1 : c.type = "module"
    · rw [h1]; decide
    by_cases h2 : c.type = "instance"
    · rw [h2]; decide
    by_cases h3 : c.type = "statement"
    · rw [h3]; decide
    by_cases h4 : c.type = "param"
    · rw [h4]; decide
    have e1 : (c.type == "module") = false := by simp [h1]
    have e2 : (c.type == "instance") = false := by simp [h2]
    have e3 : (c.type == "statement") = false := by simp [h3]
    have e4 : (c.type == "param") = false := by simp [h4]
    simp [basic_types, List.lookup, e1, e2, e3, e4, h1, h2, h3, h4]
  unfold getDefinitionType kindTagAmended
  rw [hlk]
  have hA : (¬ c.type ∈ ["import", "keyword"]) ↔
      (¬ c.type = "import" ∧ ¬ c.type = "keyword") := by
    simp [not_or]
  have hB : (c.type ∈ ["statement"]) ↔ (c.type = "statement") := by simp
  simp only [hA, hB, and_assoc]

/-- C8 witness: the amended classification evaluated at the built-in
all-uppercase statement candidate. -/
theorem C8_witness :
    getDefinitionType piBuiltin = kindTagAmended piBuiltin :=
  C8_amended piBuiltin

/-- The collision predicate exactly as the claim words it: the
NAME-candidate's text is the one split at `=` and compared with the
argument-candidate's text. -/
def claimCollision (argText nameText : String) : Bool :=
  ((pySplitChar '=' nameText).headD "") == argText

/-- A signature parameter named `count` with default value `5`. -/
def countParam : SigParam := { name := "count", description := "param count=5" }

/-- A signature carrying `countParam`. -/
def countSig : Signature :=
  { name := "f"
    type := "function"
    params := [countParam]
    docstring := ""
    definitionChildren := none }

/-- A general completion candidate also named `count`. -/
def countCand : Candidate :=
  { blankCandidate with
    name := "count"
    type := "param" }

/-- The argument-flavoured entry the code emits for `count=5`. -/
def countArgEntry : CompletionEntry :=
  { text := "count=5"
    type := "property"
    description := ""
    rightLabel := ""
    snippet := some "count=$\x7b1:5\x7d$0"
    displayText := none }

/-- C3 counterexample: the code splits the EMITTED (argument) entry's text
at `=`, so the name-candidate `count` collides with the argument entry
`count=5` and is dropped (only one entry remains), although the claim's
predicate — name-candidate text split at `=` equalling the
argument-candidate's text `count=5` — is false. -/
theorem C3_counterexample :
    serializeCompletions false true (.ok [countSig]) (.ok [countCand]) 3 "" =
      .ok { id := 3, results := [ResultEntry.completion countArgEntry],
            arguments := none }
  ∧ countArgEntry.text = "count=5"
  ∧ claimCollision countArgEntry.text countCand.name = false := ⟨rfl, rfl, rfl⟩

/-- C3 (amended): an already-emitted argument-candidate and a general
name-candidate collide exactly when the ARGUMENT-candidate's text, split at
`=` (the piece before the first `=`), equals the name-candidate's text; on
collision the name-candidate is dropped, otherwise both entries appear,
argument entry first. -/
theorem C3_amended (fuzzy showDocs : Bool) (sig : Signature) (pname : String)
    (vOpt : Option String) (cand : Candidate) (ident : Int)
    (hsig : getCallSignatures (Except.ok [sig]) = .ok [(sig, pname, vOpt)]) :
    serializeCompletions fuzzy showDocs (.ok [sig]) (.ok [cand]) ident "" =
      .ok { id := ident
            results :=
              if ((pySplitChar '=' (mkArgEntry showDocs sig pname vOpt).text).headD "")
                  == cand.name
              then [ResultEntry.completion (mkArgEntry showDocs sig pname vOpt)]
              else [ResultEntry.completion (mkArgEntry showDocs sig pname vOpt),
                    ResultEntry.completion (mkNameEntry showDocs cand)]
            arguments := none } := by
  have h0 : (pyLower "").data = [] := by decide
  have hsw : pyStartsWith (pyLower pname) (pyLower "") = true := by
    unfold pyStartsWith
    rw [h0]
    simp [List.isPrefixOf]
  have htext : (mkNameEntry showDocs cand).text = cand.name := rfl
  unfold serializeCompletions
  rw [hsig]
  simp only [bind, Except.bind, catchKeyError, List.foldl, hsw, not_true,
    and_false, if_false, List.nil_append, completionCollides, List.any_cons,
    List.any_nil, htext, Bool.or_false, Except.pure, pure]
  split <;> rfl

/-- A signature parameter named `count` without a default value. -/
def countParamND : SigParam := { name := "count", description := "param count" }

/-- A signature carrying `countParamND`. -/
def countSigND : Signature :=
  { name := "f"
    type := "function"
    params := [countParamND]
    docstring := ""
    definitionChildren := none }

/-- C3 witness: with parameter `count` (no default) and completion `count`,
the response holds exactly one `count` entry, of the snippet-bearing
argument-flavoured shape. -/
theorem C3_witness :
    serializeCompletions false true (.ok [countSigND]) (.ok [countCand]) 11 "" =
      .ok { id := 11
            results := [ResultEntry.completion (mkArgEntry true countSigND "count" none)]
            arguments := none }
  ∧ (mkArgEntry true countSigND "count" none).snippet = some "count=$1$0" :=
  ⟨C3_amended false true countSigND "count" none countCand 11 rfl, rfl⟩
